import Mathlib

/-!
Verification of the bank-account record store in src/main.py (the live
Streamlit implementation, lines 187-513) against its natural-language
specification.

Modelling conventions:
* an account record (a Python dict with keys name, email, age, phone, pin,
  "AccountNo.", balance) is the structure `Account`;
* the process-wide ledger `Bank.data` is a `List Account`, passed explicitly;
* Streamlit output is abstracted into an `OpResult`: `st.error`/early return
  branches become the corresponding error constructor, reaching `st.success`
  becomes `.success`;
* `Bank.update_data` (persist) either succeeds or raises; the boolean
  `writable` parameter selects which.  A raised exception aborts the
  operation before its success message, modelled as `.storageError`; the
  in-memory list keeps whatever mutation already happened, exactly as in
  Python;
* `Bank.generate_account_no()` is a random draw; its return value is passed
  in as an explicit oracle argument `genAccNo`.  The code calls it exactly
  once per creation (src/main.py line 306).
-/

namespace BankMgmt

/-- An account record: the dict built at src/main.py lines 307-315.
`accNo` is the key written as AccountNo. on the wire. -/
structure Account where
  name : String
  email : String
  age : Int
  phone : Int
  pin : Int
  accNo : String
  balance : Int
  deriving Repr, DecidableEq

/-- Python str.isdigit: true iff the string is non-empty and every
character is a digit. -/
def pyIsDigit (s : String) : Bool :=
  !s.isEmpty && s.toList.all Char.isDigit

/-- Python int(s) on a digit string: the decimal value of the digits.
Every call site in the source guards this with str.isdigit, so only digit
strings reach it. -/
def strToInt (s : String) : Int :=
  ((s.toList.foldl (fun n c => 10 * n + (c.toNat - 48)) 0 : Nat) : Int)

/-- Outcome of one UI operation, abstracting the Streamlit messages. -/
inductive OpResult where
  | success
  | validationError
  | authError
  | insufficientBalance
  | storageError
  deriving Repr, DecidableEq

/-- The credential predicate of Bank.find_user (src/main.py line 233):
u.get("AccountNo.") == acc_no and u.get("pin") == pin. -/
def matchesCred (acc : String) (pin : Int) (u : Account) : Bool :=
  u.accNo == acc && u.pin == pin

/-- Bank.find_user (src/main.py lines 230-235): first record matching
account number and pin, else None. -/
def find_user (data : List Account) (acc : String) (pin : Int) : Option Account :=
  data.find? (matchesCred acc pin)

/-- Bank.find_by_acc (src/main.py lines 237-242): first record matching
the account number alone.  Defined in the source but never called. -/
def find_by_acc (data : List Account) (acc : String) : Option Account :=
  data.find? (fun u => u.accNo == acc)

/-- In-place mutation of the first record satisfying p, as Python's
dict-mutation through the alias returned by find_user behaves on the
shared list. -/
def updateFirst (p : Account → Bool) (f : Account → Account) :
    List Account → List Account
  | [] => []
  | u :: rest => if p u then f u :: rest else u :: updateFirst p f rest

/-- Bank.update_data (src/main.py lines 209-213) as seen by its caller:
on a writable file the operation goes on to report success; on an
unwritable file open() raises and the exception propagates (storageError),
with the already-mutated in-memory list kept either way. -/
def persistResult (writable : Bool) (st : List Account) :
    OpResult × List Account :=
  if writable then (.success, st) else (.storageError, st)

/-- ui_create_account (src/main.py lines 281-319): validate name/email
non-empty, age at least 18, phone exactly 10 digits, pin exactly 4 digits;
then build the record with the freshly generated account number and
balance 0, append it, persist.  No collision check on genAccNo. -/
def ui_create_account (data : List Account) (name email : String)
    (age : Int) (phone pin : String) (genAccNo : String)
    (writable : Bool) : OpResult × List Account :=
  if name == "" || email == "" then (.validationError, data)
  else if age < 18 then (.validationError, data)
  else if !(pyIsDigit phone && phone.length == 10) then (.validationError, data)
  else if !(pyIsDigit pin && pin.length == 4) then (.validationError, data)
  else
    let info : Account :=
      { name := name.trim, email := email.trim, age := age,
        phone := strToInt phone, pin := strToInt pin,
        accNo := genAccNo, balance := 0 }
    persistResult writable (data ++ [info])

/-- ui_deposit (src/main.py lines 322-346): authenticate via find_user,
reject amount at most 0 or above 10000, otherwise add amount to the
found record's balance and persist. -/
def ui_deposit (data : List Account) (acc : String) (pin : Int)
    (amount : Int) (writable : Bool) : OpResult × List Account :=
  match find_user data acc pin with
  | none => (.authError, data)
  | some _ =>
    if amount ≤ 0 then (.validationError, data)
    else if amount > 10000 then (.validationError, data)
    else
      persistResult writable
        (updateFirst (matchesCred acc pin)
          (fun u => { u with balance := u.balance + amount }) data)

/-- ui_withdraw (src/main.py lines 349-376): like deposit plus the
insufficient-balance guard amount > balance; on success subtract. -/
def ui_withdraw (data : List Account) (acc : String) (pin : Int)
    (amount : Int) (writable : Bool) : OpResult × List Account :=
  match find_user data acc pin with
  | none => (.authError, data)
  | some u =>
    if amount ≤ 0 then (.validationError, data)
    else if amount > 10000 then (.validationError, data)
    else if amount > u.balance then (.insufficientBalance, data)
    else
      persistResult writable
        (updateFirst (matchesCred acc pin)
          (fun v => { v with balance := v.balance - amount }) data)

/-- The newData dict of ui_update_details (src/main.py lines 412-420):
name/email kept when the supplied string is empty, age/phone/pin replaced
by int(value) exactly when the supplied string is all digits, account
number and balance copied from the existing record. -/
def mergeUpdate (u : Account) (name email age phone pin : String) : Account :=
  { name := if name == "" then u.name else name,
    email := if email == "" then u.email else email,
    age := if pyIsDigit age then strToInt age else u.age,
    phone := if pyIsDigit phone then strToInt phone else u.phone,
    pin := if pyIsDigit pin then strToInt pin else u.pin,
    accNo := u.accNo,
    balance := u.balance }

/-- ui_update_details (src/main.py lines 391-425): authenticate, merge the
supplied fields over the found record with user.update(newData), persist.
No per-field validation is performed. -/
def ui_update_details (data : List Account) (acc : String) (pin : Int)
    (name email age phone newPin : String) (writable : Bool) :
    OpResult × List Account :=
  match find_user data acc pin with
  | none => (.authError, data)
  | some u =>
      persistResult writable
        (updateFirst (matchesCred acc pin)
          (fun _ => mergeUpdate u name email age phone newPin) data)

/-- ui_delete_account (src/main.py lines 428-446): authenticate, remove
the first record equal to the found one (Python list.remove uses value
equality), persist. -/
def ui_delete_account (data : List Account) (acc : String) (pin : Int)
    (writable : Bool) : OpResult × List Account :=
  match find_user data acc pin with
  | none => (.authError, data)
  | some u => persistResult writable (data.erase u)

/-- Outcome of the login form's submit branch. -/
inductive LoginOutcome where
  | formatError
  | loggedIn (acc : String) (pin : Int)
  | invalid
  deriving Repr, DecidableEq

/-- login_block submit branch (src/main.py lines 260-269): reject an empty
account number or non-numeric pin string up front, then authenticate with
find_user; both the unknown-account and wrong-pin cases fall through to
the same invalid outcome. -/
def login_block (data : List Account) (accNo pinStr : String) : LoginOutcome :=
  if accNo == "" || !(pyIsDigit pinStr) then .formatError
  else
    match find_user data accNo (strToInt pinStr) with
    | some _ => .loggedIn accNo (strToInt pinStr)
    | none => .invalid

/-- What one read of the backing file can yield. -/
inductive FileRead where
  | missing
  | parseOk (l : List Account)
  | parseFail (err : String)

/-- The class-body load of Bank (src/main.py lines 201-207): data starts
as the empty list; a missing file leaves it empty, a successful parse
replaces it, and any exception is caught and printed, leaving it empty. -/
def startupLoad : FileRead → List Account
  | .missing => []
  | .parseOk l => l
  | .parseFail _ => []

/-- Bank.reload (src/main.py lines 215-220): no try/except.  A missing
file is a no-op; on a successful parse the ledger is replaced; on a parse
or I/O failure json.load raises before the assignment, so the first
component carries the propagated exception and the ledger keeps its
previous contents. -/
def reload (current : List Account) : FileRead → Option String × List Account
  | .missing => (none, current)
  | .parseOk l => (none, l)
  | .parseFail e => (some e, current)

/-- One mutating operation together with its inputs. -/
inductive MutOp where
  | create (name email : String) (age : Int) (phone pin accCand : String)
  | deposit (acc : String) (pin amount : Int)
  | withdraw (acc : String) (pin amount : Int)
  | update (acc : String) (pin : Int) (name email age phone newPin : String)
  | delete (acc : String) (pin : Int)

/-- Dispatch a mutating operation to its UI handler. -/
def runOp (op : MutOp) (data : List Account) (writable : Bool) :
    OpResult × List Account :=
  match op with
  | .create n e a ph pi cand => ui_create_account data n e a ph pi cand writable
  | .deposit acc pin amt => ui_deposit data acc pin amt writable
  | .withdraw acc pin amt => ui_withdraw data acc pin amt writable
  | .update acc pin n e a ph pi => ui_update_details data acc pin n e a ph pi writable
  | .delete acc pin => ui_delete_account data acc pin writable

/-! ## Helper lemmas -/

/-- The in-memory list handed back by a persist attempt is the mutated
list, whether or not the write succeeded. -/
theorem persistResult_snd (w : Bool) (st : List Account) :
    (persistResult w st).2 = st := by
  cases w <;> rfl

/-- A failed persist never reports success. -/
theorem persistResult_fst_ne_success (st : List Account) :
    (persistResult false st).1 ≠ .success := by
  simp [persistResult]

/-- A found record splits the list, with no earlier match, and updateFirst
rewrites exactly that record. -/
theorem find?_split {p : Account → Bool} {l : List Account} {u : Account}
    (h : l.find? p = some u) :
    ∃ l₁ l₂, l = l₁ ++ u :: l₂ ∧ (∀ x ∈ l₁, p x = false) ∧
      ∀ f, updateFirst p f l = l₁ ++ f u :: l₂ := by
  induction l with
  | nil => simp [List.find?] at h
  | cons a t ih =>
    by_cases hp : p a
    · rw [List.find?_cons_of_pos _ hp, Option.some_inj] at h
      subst h
      exact ⟨[], t, rfl, by simp, fun f => by simp [updateFirst, hp]⟩
    · rw [List.find?_cons_of_neg _ hp] at h
      obtain ⟨l₁, l₂, hl, hall, hupd⟩ := ih h
      refine ⟨a :: l₁, l₂, by simp [hl], ?_, fun f => by
        simp [updateFirst, hp, hupd f]⟩
      intro x hx
      rcases List.mem_cons.1 hx with rfl | hx
      · simpa using hp
      · exact hall x hx

/-! ## C1 -/

/-- A concrete pre-existing record used by several concrete scenarios. -/
def ana : Account :=
  { name := "Ana", email := "a@x.com", age := 30, phone := 5551234567,
    pin := 1234, accNo := "aB12Cd34Ef56", balance := 500 }

/-- C1: when the oracle draw of Bank.generate_account_no collides with an
account number already in the ledger, ui_create_account still reports
success and appends the record, leaving two records with the same account
number: the source performs no collision check and no retry (find_by_acc
is never called), contradicting the stated uniqueness contract. -/
theorem create_appends_colliding_account_no :
    (ui_create_account [ana] "Bob" "b@x.com" 30 "5551234567" "4321"
        "aB12Cd34Ef56" true).1 = .success ∧
    ¬ ((ui_create_account [ana] "Bob" "b@x.com" 30 "5551234567" "4321"
        "aB12Cd34Ef56" true).2.map Account.accNo).Nodup := by
  constructor <;> decide

/-! ## C2 -/

/-- C2 counterexample: an authenticated deposit of 100 with an unwritable
backing file does not report success, yet the in-memory ledger is NOT
equal to its pre-operation state: the balance increment stays. -/
theorem deposit_persist_failure_keeps_mutation :
    (ui_deposit [ana] "aB12Cd34Ef56" 1234 100 false).1 = .storageError ∧
    (ui_deposit [ana] "aB12Cd34Ef56" 1234 100 false).2 ≠ [ana] := by
  constructor <;> decide

/-- C2 amended: for every mutating operation run against an unwritable
backing file, the operation never reports success, but the in-memory
mutation is retained rather than rolled back: the resulting in-memory
ledger is exactly the one a successful run would have produced. -/
theorem persist_failure_no_success_mutation_retained
    (op : MutOp) (data : List Account) :
    (runOp op data false).1 ≠ .success ∧
    (runOp op data false).2 = (runOp op data true).2 := by
  cases op with
  | create n e a ph pi cand =>
    simp only [runOp, ui_create_account]
    split
    · simp
    split
    · simp
    split
    · simp
    split
    · simp
    exact ⟨persistResult_fst_ne_success _, by rw [persistResult_snd, persistResult_snd]⟩
  | deposit acc pin amt =>
    simp only [runOp, ui_deposit]
    rcases find_user data acc pin with _ | u
    · simp
    · simp only
      split
      · simp
      split
      · simp
      exact ⟨persistResult_fst_ne_success _, by rw [persistResult_snd, persistResult_snd]⟩
  | withdraw acc pin amt =>
    simp only [runOp, ui_withdraw]
    rcases find_user data acc pin with _ | u
    · simp
    · simp only
      split
      · simp
      split
      · simp
      split
      · simp
      exact ⟨persistResult_fst_ne_success _, by rw [persistResult_snd, persistResult_snd]⟩
  | update acc pin n e a ph pi =>
    simp only [runOp, ui_update_details]
    rcases find_user data acc pin with _ | u
    · simp
    · exact ⟨persistResult_fst_ne_success _, by rw [persistResult_snd, persistResult_snd]⟩
  | delete acc pin =>
    simp only [runOp, ui_delete_account]
    rcases find_user data acc pin with _ | u
    · simp
    · exact ⟨persistResult_fst_ne_success _, by rw [persistResult_snd, persistResult_snd]⟩

/-! ## C3 -/

/-- C3: starting from a ledger in which every balance is non-negative,
every public mutating operation, successful or not, persisted or not,
leaves every balance non-negative. -/
theorem ops_preserve_nonneg_balance (op : MutOp) (data : List Account)
    (w : Bool) (h : ∀ u ∈ data, 0 ≤ u.balance) :
    ∀ v ∈ (runOp op data w).2, 0 ≤ v.balance := by
  cases op with
  | create n e a ph pi cand =>
    intro v hv
    simp only [runOp, ui_create_account] at hv
    split at hv
    · exact h v hv
    split at hv
    · exact h v hv
    split at hv
    · exact h v hv
    split at hv
    · exact h v hv
    rw [persistResult_snd] at hv
    rcases List.mem_append.1 hv with hv | hv
    · exact h v hv
    · rcases List.mem_singleton.1 hv with rfl
      exact le_refl 0
  | deposit acc pin amt =>
    intro v hv
    rcases hfind : find_user data acc pin with _ | u
    · simp only [runOp, ui_deposit, hfind] at hv
      exact h v hv
    · simp only [runOp, ui_deposit, hfind] at hv
      by_cases h1 : amt ≤ 0
      · rw [if_pos h1] at hv; exact h v hv
      rw [if_neg h1] at hv
      by_cases h2 : amt > 10000
      · rw [if_pos h2] at hv; exact h v hv
      rw [if_neg h2, persistResult_snd] at hv
      obtain ⟨l₁, l₂, hl, -, hupd⟩ := find?_split hfind
      rw [hupd] at hv
      have hu : 0 ≤ u.balance :=
        h u (by rw [hl]; exact List.mem_append_right _ (List.mem_cons_self _ _))
      rcases List.mem_append.1 hv with hv | hv
      · exact h v (by rw [hl]; exact List.mem_append_left _ hv)
      · rcases List.mem_cons.1 hv with rfl | hv
        · simp only
          omega
        · exact h v (by rw [hl]; exact List.mem_append_right _ (List.mem_cons_of_mem _ hv))
  | withdraw acc pin amt =>
    intro v hv
    rcases hfind : find_user data acc pin with _ | u
    · simp only [runOp, ui_withdraw, hfind] at hv
      exact h v hv
    · simp only [runOp, ui_withdraw, hfind] at hv
      by_cases h1 : amt ≤ 0
      · rw [if_pos h1] at hv; exact h v hv
      rw [if_neg h1] at hv
      by_cases h2 : amt > 10000
      · rw [if_pos h2] at hv; exact h v hv
      rw [if_neg h2] at hv
      by_cases h3 : amt > u.balance
      · rw [if_pos h3] at hv; exact h v hv
      rw [if_neg h3, persistResult_snd] at hv
      obtain ⟨l₁, l₂, hl, -, hupd⟩ := find?_split hfind
      rw [hupd] at hv
      rcases List.mem_append.1 hv with hv | hv
      · exact h v (by rw [hl]; exact List.mem_append_left _ hv)
      · rcases List.mem_cons.1 hv with rfl | hv
        · simp only
          omega
        · exact h v (by rw [hl]; exact List.mem_append_right _ (List.mem_cons_of_mem _ hv))
  | update acc pin n e a ph pi =>
    intro v hv
    rcases hfind : find_user data acc pin with _ | u
    · simp only [runOp, ui_update_details, hfind] at hv
      exact h v hv
    · simp only [runOp, ui_update_details, hfind, persistResult_snd] at hv
      obtain ⟨l₁, l₂, hl, -, hupd⟩ := find?_split hfind
      rw [hupd] at hv
      have hu : 0 ≤ u.balance :=
        h u (by rw [hl]; exact List.mem_append_right _ (List.mem_cons_self _ _))
      rcases List.mem_append.1 hv with hv | hv
      · exact h v (by rw [hl]; exact List.mem_append_left _ hv)
      · rcases List.mem_cons.1 hv with rfl | hv
        · exact hu
        · exact h v (by rw [hl]; exact List.mem_append_right _ (List.mem_cons_of_mem _ hv))
  | delete acc pin =>
    intro v hv
    rcases hfind : find_user data acc pin with _ | u
    · simp only [runOp, ui_delete_account, hfind] at hv
      exact h v hv
    · simp only [runOp, ui_delete_account, hfind, persistResult_snd] at hv
      exact h v (List.mem_of_mem_erase hv)

/-- C3 witness: the invariant theorem applied to a concrete one-record
ledger and a concrete withdrawal, evaluated at the updated record. -/
theorem ops_preserve_nonneg_balance_witness :
    (0 : Int) ≤ ({ ana with balance := 300 } : Account).balance :=
  ops_preserve_nonneg_balance (.withdraw "aB12Cd34Ef56" 1234 200) [ana] true
    (by decide) { ana with balance := 300 } (by decide)

/-! ## C4 -/

/-- C4: an authenticated withdrawal of a positive amount within the 10000
cap but exceeding the current balance returns the insufficient-balance
outcome and leaves the whole ledger unchanged. -/
theorem withdraw_insufficient_balance (data : List Account) (acc : String)
    (pin amount : Int) (u : Account) (w : Bool)
    (hf : find_user data acc pin = some u)
    (h1 : 0 < amount) (h2 : amount ≤ 10000) (h3 : u.balance < amount) :
    ui_withdraw data acc pin amount w = (.insufficientBalance, data) := by
  simp only [ui_withdraw, hf]
  rw [if_neg (by omega), if_neg (by omega), if_pos (by omega)]

/-- C4 witness: withdrawing 600 from a balance of 500 fails with the
insufficient-balance outcome and leaves the ledger unchanged. -/
theorem withdraw_insufficient_balance_witness :
    ui_withdraw [ana] "aB12Cd34Ef56" 1234 600 true
      = (.insufficientBalance, [ana]) :=
  withdraw_insufficient_balance [ana] "aB12Cd34Ef56" 1234 600 ana true
    (by decide) (by decide) (by decide) (by decide)

/-! ## C7 -/

/-- C7: for an authenticated deposit, an amount that is non-positive or
above 10000 fails with a validation outcome and mutates nothing; an
amount within bounds reports success and increases the balance of exactly
the authenticated record by that amount, touching no other record. -/
theorem deposit_spec (data : List Account) (acc : String)
    (pin amount : Int) (u : Account)
    (hf : find_user data acc pin = some u) :
    ((amount ≤ 0 ∨ 10000 < amount) →
      ui_deposit data acc pin amount true = (.validationError, data)) ∧
    (0 < amount → amount ≤ 10000 →
      (ui_deposit data acc pin amount true).1 = .success ∧
      ∃ l₁ l₂, data = l₁ ++ u :: l₂ ∧
        (ui_deposit data acc pin amount true).2
          = l₁ ++ { u with balance := u.balance + amount } :: l₂) := by
  constructor
  · intro hbad
    simp only [ui_deposit, hf]
    rcases hbad with hbad | hbad
    · rw [if_pos hbad]
    · rw [if_neg (by omega), if_pos (by omega)]
  · intro h1 h2
    obtain ⟨l₁, l₂, hl, -, hupd⟩ := find?_split hf
    simp only [ui_deposit, hf]
    rw [if_neg (by omega), if_neg (by omega)]
    exact ⟨by rw [persistResult]; rfl, l₁, l₂, hl, by rw [persistResult_snd, hupd]⟩

/-- C7 witness: depositing exactly 10000 into a zero-balance account
succeeds, and depositing 10001 fails without mutating the ledger. -/
theorem deposit_spec_witness :
    (ui_deposit [{ ana with balance := 0 }] "aB12Cd34Ef56" 1234 10000 true).1
        = .success ∧
    ui_deposit [{ ana with balance := 0 }] "aB12Cd34Ef56" 1234 10001 true
        = (.validationError, [{ ana with balance := 0 }]) :=
  ⟨((deposit_spec [{ ana with balance := 0 }] "aB12Cd34Ef56" 1234 10000
      { ana with balance := 0 } (by decide)).2 (by decide) (by decide)).1,
   (deposit_spec [{ ana with balance := 0 }] "aB12Cd34Ef56" 1234 10001
      { ana with balance := 0 } (by decide)).1 (by decide)⟩

/-! ## C5 -/

/-- C5 counterexample: supplying the two-digit string 12 as the new pin to
update_details violates the creation rule of exactly 4 digits, yet the
operation reports success and stores pin 12: no ValidationError is raised
and the ledger is mutated. -/
theorem update_accepts_short_pin :
    (ui_update_details [ana] "aB12Cd34Ef56" 1234 "" "" "" "" "12" true).1
        = .success ∧
    (ui_update_details [ana] "aB12Cd34Ef56" 1234 "" "" "" "" "12" true).2
        = [{ ana with pin := 12 }] := by
  constructor <;> decide

/-- C5 amended: update_details applies no per-field validation at all.
For every authenticated call, whatever the supplied field values, the
operation reports success, and the authenticated record is replaced by
the unvalidated merge (non-empty name/email taken verbatim, digit-string
age/phone/pin taken as their integer value regardless of range or length,
anything else keeping the stored value), the rest of the ledger untouched. -/
theorem update_no_validation (data : List Account) (acc : String)
    (pin : Int) (nm em ag ph pinNew : String) (u : Account)
    (hf : find_user data acc pin = some u) :
    (ui_update_details data acc pin nm em ag ph pinNew true).1 = .success ∧
    ∃ l₁ l₂, data = l₁ ++ u :: l₂ ∧
      (ui_update_details data acc pin nm em ag ph pinNew true).2
        = l₁ ++ mergeUpdate u nm em ag ph pinNew :: l₂ := by
  obtain ⟨l₁, l₂, hl, -, hupd⟩ := find?_split hf
  simp only [ui_update_details, hf]
  exact ⟨by rw [persistResult]; rfl, l₁, l₂, hl, by rw [persistResult_snd, hupd]⟩

/-- C5 amended witness: an update supplying age 5, phone 123 and pin 12
(all violating the creation rules) still succeeds. -/
theorem update_no_validation_witness :
    (ui_update_details [ana] "aB12Cd34Ef56" 1234 "" "" "5" "123" "12" true).1
        = .success :=
  (update_no_validation [ana] "aB12Cd34Ef56" 1234 "" "" "5" "123" "12" ana
    (by decide)).1

/-! ## C6 -/

/-- C6: two failing login attempts that pass the input-format check, one
with an account number present in the ledger but a pin matching no record
of that account number, the other with an account number present in no
record, produce the identical invalid outcome: nothing in the result
distinguishes the two failure conditions. -/
theorem login_uniform_failure (data : List Account)
    (acc₁ pin₁ acc₂ pin₂ : String)
    (hne₁ : acc₁ ≠ "") (hd₁ : pyIsDigit pin₁ = true)
    (hne₂ : acc₂ ≠ "") (hd₂ : pyIsDigit pin₂ = true)
    (hexists : ∃ u ∈ data, u.accNo = acc₁)
    (hwrong : ∀ u ∈ data, u.accNo = acc₁ → u.pin ≠ strToInt pin₁)
    (habsent : ∀ u ∈ data, u.accNo ≠ acc₂) :
    login_block data acc₁ pin₁ = login_block data acc₂ pin₂ ∧
    login_block data acc₁ pin₁ = .invalid := by
  have hnone₁ : find_user data acc₁ (strToInt pin₁) = none := by
    rw [find_user, List.find?_eq_none]
    intro x hx
    simp only [matchesCred, Bool.and_eq_true, beq_iff_eq, not_and]
    exact fun hacc => hwrong x hx hacc
  have hnone₂ : find_user data acc₂ (strToInt pin₂) = none := by
    rw [find_user, List.find?_eq_none]
    intro x hx
    simp only [matchesCred, Bool.and_eq_true, beq_iff_eq, not_and]
    exact fun hacc => absurd hacc (habsent x hx)
  constructor
  · simp [login_block, hne₁, hd₁, hne₂, hd₂, hnone₁, hnone₂]
  · simp [login_block, hne₁, hd₁, hnone₁]

/-- C6 witness: a wrong pin against the record of ana and a nonexistent
account number both yield the invalid outcome. -/
theorem login_uniform_failure_witness :
    login_block [ana] "aB12Cd34Ef56" "9999"
        = login_block [ana] "Zz99Yy88Xx77" "1234" ∧
    login_block [ana] "aB12Cd34Ef56" "9999" = .invalid :=
  login_uniform_failure [ana] "aB12Cd34Ef56" "9999" "Zz99Yy88Xx77" "1234"
    (by decide) (by decide) (by decide) (by decide)
    ⟨ana, by decide, by decide⟩ (by decide) (by decide)

/-! ## C8 -/

/-- C8: a successful update_details call, whatever combination of fields
is supplied, leaves the account number and the balance of the updated
record equal to their prior values, and every other record untouched. -/
theorem update_preserves_acc_and_balance (data : List Account)
    (acc : String) (pin : Int) (nm em ag ph pinNew : String) (u : Account)
    (hf : find_user data acc pin = some u) :
    (ui_update_details data acc pin nm em ag ph pinNew true).1 = .success ∧
    ∃ l₁ l₂ r, data = l₁ ++ u :: l₂ ∧
      (ui_update_details data acc pin nm em ag ph pinNew true).2
        = l₁ ++ r :: l₂ ∧
      r.accNo = u.accNo ∧ r.balance = u.balance := by
  obtain ⟨l₁, l₂, hl, -, hupd⟩ := find?_split hf
  simp only [ui_update_details, hf]
  refine ⟨by rw [persistResult]; rfl,
    l₁, l₂, mergeUpdate u nm em ag ph pinNew, hl,
    by rw [persistResult_snd, hupd], rfl, rfl⟩

/-- C8 witness: updating the phone of ana keeps the account number and
the balance 500. -/
theorem update_preserves_acc_and_balance_witness :
    (ui_update_details [ana] "aB12Cd34Ef56" 1234 "" "" "" "5559876543" ""
        true).1 = .success ∧
    (mergeUpdate ana "" "" "" "5559876543" "").accNo = "aB12Cd34Ef56" ∧
    (mergeUpdate ana "" "" "" "5559876543" "").balance = 500 := by
  have h := update_preserves_acc_and_balance [ana] "aB12Cd34Ef56" 1234
    "" "" "" "5559876543" "" ana (by decide)
  exact ⟨h.1, by decide, by decide⟩

/-! ## C9 -/

/-- C9 counterexample: a parse failure during the on-demand reload is not
caught and does not fall back to an empty ledger: the exception propagates
(first component is not none) and the ledger keeps its previous non-empty
contents. -/
theorem reload_propagates_parse_failure :
    (reload [ana] (.parseFail "boom")).1 ≠ none ∧
    (reload [ana] (.parseFail "boom")).2 ≠ [] := by
  constructor <;> decide

/-- C9 amended: at process start a missing file, a successful parse, and a
parse or I/O failure respectively yield the empty ledger, the parsed
ledger, and the caught-and-logged fallback to the empty ledger; but the
on-demand reload catches nothing: a parse or I/O failure there propagates
as an uncaught fault and the in-memory ledger keeps its previous contents. -/
theorem load_reload_failure_behavior :
    (∀ e, startupLoad (.parseFail e) = []) ∧
    startupLoad .missing = [] ∧
    (∀ l, startupLoad (.parseOk l) = l) ∧
    (∀ cur e, reload cur (.parseFail e) = (some e, cur)) ∧
    (∀ cur l, reload cur (.parseOk l) = (none, l)) ∧
    (∀ cur, reload cur .missing = (none, cur)) :=
  ⟨fun _ => rfl, rfl, fun _ => rfl, fun _ _ => rfl, fun _ _ => rfl, fun _ => rfl⟩

/-! ## C10 -/

/-- C10: in an authenticated update_details call, a supplied age, phone or
pin value that is non-empty but not composed entirely of digits is
silently ignored: the call behaves exactly as if that field had been left
empty (so the stored value is kept), still reports success, and the merge
keeps the existing stored value for that field. -/
theorem update_nondigit_field_kept (data : List Account) (acc : String)
    (pin : Int) (nm em ag ph pinNew : String) (u : Account)
    (hf : find_user data acc pin = some u) :
    (ag ≠ "" → pyIsDigit ag = false →
      ui_update_details data acc pin nm em ag ph pinNew true
        = ui_update_details data acc pin nm em "" ph pinNew true ∧
      (ui_update_details data acc pin nm em ag ph pinNew true).1 = .success ∧
      (mergeUpdate u nm em ag ph pinNew).age = u.age) ∧
    (ph ≠ "" → pyIsDigit ph = false →
      ui_update_details data acc pin nm em ag ph pinNew true
        = ui_update_details data acc pin nm em ag "" pinNew true ∧
      (ui_update_details data acc pin nm em ag ph pinNew true).1 = .success ∧
      (mergeUpdate u nm em ag ph pinNew).phone = u.phone) ∧
    (pinNew ≠ "" → pyIsDigit pinNew = false →
      ui_update_details data acc pin nm em ag ph "" true
        = ui_update_details data acc pin nm em ag ph pinNew true ∧
      (ui_update_details data acc pin nm em ag ph pinNew true).1 = .success ∧
      (mergeUpdate u nm em ag ph pinNew).pin = u.pin) := by
  have hempty : pyIsDigit "" = false := by decide
  have hsucc : (ui_update_details data acc pin nm em ag ph pinNew true).1
      = .success := by
    simp only [ui_update_details, hf]
    rw [persistResult]
    rfl
  refine ⟨fun _ hag => ⟨?_, hsucc, by simp [mergeUpdate, hag]⟩,
    fun _ hph => ⟨?_, hsucc, by simp [mergeUpdate, hph]⟩,
    fun _ hpi => ⟨?_, hsucc, by simp [mergeUpdate, hpi]⟩⟩
  · simp [ui_update_details, hf, mergeUpdate, hag, hempty]
  · simp [ui_update_details, hf, mergeUpdate, hph, hempty]
  · simp [ui_update_details, hf, mergeUpdate, hpi, hempty]

/-- C10 witness: supplying the non-digit age abc behaves exactly like
supplying an empty age, succeeds, and keeps the stored age 30. -/
theorem update_nondigit_field_kept_witness :
    ui_update_details [ana] "aB12Cd34Ef56" 1234 "" "" "abc" "" "" true
      = ui_update_details [ana] "aB12Cd34Ef56" 1234 "" "" "" "" "" true ∧
    (ui_update_details [ana] "aB12Cd34Ef56" 1234 "" "" "abc" "" "" true).1
      = .success ∧
    (mergeUpdate ana "" "" "abc" "" "").age = ana.age :=
  (update_nondigit_field_kept [ana] "aB12Cd34Ef56" 1234 "" "" "abc" "" ""
    ana (by decide)).1 (by decide) (by decide)

end BankMgmt
